import Mathlib

/-!
Shallow embedding of the `mirror` photo-gallery front end, covering the two
components the specification singles out: the paginated `ImageService`
(`src/js/imageService.js`, final version — the repository contains two earlier
superseded versions of the same class, treated as dead code per the spec) and
the `ImagePreloader` (`src/js/imagePreloader.js`).

Network I/O is modelled by passing the outcome of the single HTTP fetch a call
performs as an explicit argument; `Date.now()` / `Math.random()` fallbacks are
modelled as parameters of a `FetchCtx`.  JavaScript numbers used as page
counters are modelled as `Int`; image dimensions in the compression routine are
modelled as exact rationals (`ℚ`).
-/

namespace Mirror

/-- A photo record as normalized by `ImageService` (the shape produced by the
`photosArray.map` transform). -/
structure Photo where
  id : String
  description : String
  location : String
  timestamp : String
  uploadedAt : String
  url : String
  thumbnailUrl : String
  s3Key : String
deriving Repr, DecidableEq

/-- A raw photo record as it arrives from the server; every field is optional
(`none` = property absent).  An empty string is falsy in JavaScript, so the
normalization treats `some ""` like `none`. -/
structure RawPhoto where
  photoId : Option String := none
  id : Option String := none
  description : Option String := none
  location : Option String := none
  timestamp : Option String := none
  createdAt : Option String := none
  uploadedAt : Option String := none
  imageUrl : Option String := none
  url : Option String := none
  thumbnailUrl : Option String := none
  s3Key : Option String := none
  key : Option String := none
deriving Repr, DecidableEq

/-- JavaScript `a || b` on string-valued properties: falls through on absent
(`undefined`) and on the empty string (both falsy). -/
def jsOrOpt (a b : Option String) : Option String :=
  match a with
  | some s => if s = "" then b else some s
  | none => b

/-- JavaScript `a || d` with a string default `d`. -/
def jsGet (a : Option String) (d : String) : String :=
  match a with
  | some s => if s = "" then d else s
  | none => d

/-- Call-level context standing in for the impure parts of the normalization:
`fallbackId` models `img-${Date.now()}-${Math.random()}` and `nowIso` models
`new Date().toISOString()`. -/
structure FetchCtx where
  fallbackId : String
  nowIso : String
deriving Repr, DecidableEq

/-- The per-record transform applied to every raw photo
(`photosArray.map(photo => ({...}))` in `fetchImages` / `loadMorePhotos`). -/
def transformPhoto (ctx : FetchCtx) (p : RawPhoto) : Photo where
  id := jsGet (jsOrOpt p.photoId p.id) ctx.fallbackId
  description := jsGet p.description "No description available"
  location := jsGet p.location "Unknown location"
  timestamp := jsGet (jsOrOpt p.timestamp p.createdAt) ctx.nowIso
  uploadedAt := jsGet (jsOrOpt p.uploadedAt p.timestamp) ctx.nowIso
  url := jsGet (jsOrOpt p.imageUrl p.url) ""
  thumbnailUrl := jsGet (jsOrOpt p.thumbnailUrl (jsOrOpt p.imageUrl p.url)) ""
  s3Key := jsGet (jsOrOpt p.s3Key p.key) ""

/-- The JSON payload of a page response, after `response.json()` (and after a
`body`-string unwrap, where applicable), classified by the shapes the code
sniffs for. -/
inductive ApiPayload where
  /-- the response is directly a JSON array -/
  | arr (photos : List RawPhoto)
  /-- the response is an object with a `photos` array; `hasMore` optional -/
  | photosObj (photos : List RawPhoto) (hasMore : Option Bool)
  /-- the response is an object with an `Items` array (DynamoDB style) -/
  | itemsObj (photos : List RawPhoto)
  /-- any other JSON value -/
  | other
deriving Repr, DecidableEq

/-- The decoded top-level response: either the payload directly, or an API
Gateway envelope `{ body: "<json string>" }` whose inner string either parses
to a payload (`some`) or fails to parse (`none`). -/
inductive ApiResponse where
  | plain (p : ApiPayload)
  | wrapped (inner : Option ApiPayload)
deriving Repr, DecidableEq

/-- Outcome of one `fetch` of a photos page, as observed by the caller. -/
inductive FetchOutcome where
  /-- `fetch` itself rejects: `TypeError` whose message mentions `fetch` -/
  | networkError
  /-- `response.ok` is false, with the HTTP status -/
  | httpError (status : Nat)
  /-- `response.json()` throws (body is not JSON) -/
  | undecodable
  /-- `response.json()` succeeds with this decoded value -/
  | payload (resp : ApiResponse)
deriving Repr, DecidableEq

/-- Unwrapping step `let parsedData = data` followed by
`if (data.body ...) parsedData = JSON.parse(data.body)` — `none` means the
parse threw. -/
def parseEnvelope : ApiResponse → Option ApiPayload
  | .plain p => some p
  | .wrapped i => i

/-- Mutable state of the final (paginated) `ImageService`. -/
structure ImageServiceState where
  images : List Photo := []
  isLoading : Bool := false
  apiBaseUrl : Option String := none
  currentPage : Int := 0
  limit : Nat := 54
  hasMore : Bool := true
deriving Repr, DecidableEq

instance {ε α : Type _} [DecidableEq ε] [DecidableEq α] : DecidableEq (Except ε α)
  | .error e, .error f =>
      if h : e = f then .isTrue (by rw [h])
      else .isFalse (by intro hc; cases hc; exact h rfl)
  | .error _, .ok _ => .isFalse (by intro hc; cases hc)
  | .ok _, .error _ => .isFalse (by intro hc; cases hc)
  | .ok a, .ok b =>
      if h : a = b then .isTrue (by rw [h])
      else .isFalse (by intro hc; cases hc; exact h rfl)

/-- Result of one `fetchImages` / `loadMorePhotos` call: the returned value or
the thrown error message, the post-call state, and — as an observation of the
call's I/O — the `page` query parameter of the HTTP request it issued
(`none` when no request was made). -/
structure CallResult where
  ret : Except String (List Photo)
  state : ImageServiceState
  requestedPage : Option Int
deriving Repr, DecidableEq

/-- Model of `fetchImages()` of the final `ImageService`: resets pagination to page 1 and
requests that page; `net` is the outcome of that request. -/
def fetchImages (ctx : FetchCtx) (s : ImageServiceState) (net : FetchOutcome) :
    CallResult :=
  -- this.isLoading = true; this.currentPage = 1; this.hasMore = true;
  let s1 : ImageServiceState := { s with isLoading := true, currentPage := 1, hasMore := true }
  match s1.apiBaseUrl with
  | none =>
      -- unconfigured: empty images, hasMore = false, no request
      { ret := .ok [],
        state := { s1 with images := [], hasMore := false, isLoading := false },
        requestedPage := none }
  | some _ =>
      match net with
      | .networkError =>
          -- catch branch for TypeError mentioning fetch: placeholder fallback
          { ret := .ok [],
            state := { s1 with images := [], hasMore := false, isLoading := false },
            requestedPage := some 1 }
      | .httpError status =>
          -- throw on !response.ok, rethrown from the catch
          { ret := .error ("Failed to fetch images: HTTP error! status: " ++ toString status),
            state := { s1 with isLoading := false },
            requestedPage := some 1 }
      | .undecodable =>
          -- response.json() throws, rethrown from the catch
          { ret := .error "Failed to fetch images: body is not JSON",
            state := { s1 with isLoading := false },
            requestedPage := some 1 }
      | .payload resp =>
          match parseEnvelope resp with
          | none =>
              -- JSON.parse(data.body) threw: 'Invalid API response format'
              { ret := .error "Failed to fetch images: Invalid API response format",
                state := { s1 with isLoading := false },
                requestedPage := some 1 }
          | some (.photosObj photos hm) =>
              let images := photos.map (transformPhoto ctx)
              { ret := .ok images,
                state := { s1 with images := images,
                                   hasMore := hm.getD (photos.length == s1.limit),
                                   isLoading := false },
                requestedPage := some 1 }
          | some _ =>
              -- unexpected format: empty collection, hasMore = false
              { ret := .ok [],
                state := { s1 with images := [], hasMore := false, isLoading := false },
                requestedPage := some 1 }

/-- Model of `loadMorePhotos()` of the final `ImageService`; `net` is the outcome of the
page request it issues (if it issues one). -/
def loadMorePhotos (ctx : FetchCtx) (s : ImageServiceState) (net : FetchOutcome) :
    CallResult :=
  -- if (this.isLoading || !this.hasMore) return [];
  if s.isLoading || !s.hasMore then
    { ret := .ok [], state := s, requestedPage := none }
  else
    let s1 : ImageServiceState := { s with isLoading := true }
    match s1.apiBaseUrl with
    | none =>
        { ret := .ok [], state := { s1 with isLoading := false }, requestedPage := none }
    | some _ =>
        -- this.currentPage++;
        let s2 : ImageServiceState := { s1 with currentPage := s1.currentPage + 1 }
        -- catch branch: this.isLoading = false; this.currentPage--; throw
        let rollback : ImageServiceState :=
          { s2 with isLoading := false, currentPage := s2.currentPage - 1 }
        match net with
        | .networkError =>
            { ret := .error "Failed to load more photos: network error",
              state := rollback, requestedPage := some s2.currentPage }
        | .httpError status =>
            { ret := .error ("Failed to load more photos: HTTP error! status: " ++ toString status),
              state := rollback, requestedPage := some s2.currentPage }
        | .undecodable =>
            { ret := .error "Failed to load more photos: body is not JSON",
              state := rollback, requestedPage := some s2.currentPage }
        | .payload resp =>
            match parseEnvelope resp with
            | none =>
                { ret := .error "Failed to load more photos: Invalid API response format",
                  state := rollback, requestedPage := some s2.currentPage }
            | some (.photosObj photos hm) =>
                let newPhotos := photos.map (transformPhoto ctx)
                { ret := .ok newPhotos,
                  state := { s2 with images := s2.images ++ newPhotos,
                                     hasMore := hm.getD (newPhotos.length == s2.limit),
                                     isLoading := false },
                  requestedPage := some s2.currentPage }
            | some _ =>
                -- unexpected format: hasMore = false, return [] (no throw, no rollback)
                { ret := .ok [],
                  state := { s2 with hasMore := false, isLoading := false },
                  requestedPage := some s2.currentPage }

/-- The fetch outcomes that make the page request "fail" in the sense of the
error-handling design: rejected fetch, non-ok status, or an undecodable body
(either the HTTP body or the gateway `body` string). -/
def FetchOutcome.isFailure : FetchOutcome → Bool
  | .networkError => true
  | .httpError _ => true
  | .undecodable => true
  | .payload (.wrapped none) => true
  | .payload _ => false

/-! Navigation lookups (`getImageIndex`, `getNextImage`, `getPreviousImage`),
shared verbatim by all three `ImageService` versions. -/

/-- JavaScript `this.images.findIndex(image => image.id === id)`: index of the first
photo with the given id, `-1` when absent (JavaScript `findIndex`). -/
def findIndexId (id : String) : List Photo → Int
  | [] => -1
  | p :: rest =>
      if p.id = id then 0
      else
        let r := findIndexId id rest
        if r = -1 then -1 else r + 1

/-- Model of `getImageIndex(id)` over a given collection. -/
def getImageIndex (images : List Photo) (id : String) : Int :=
  findIndexId id images

/-- Model of `getImageById(id)`, that is
`this.images.find(image => image.id === id) || null`. -/
def getImageById (images : List Photo) (id : String) : Option Photo :=
  images.find? (fun image => image.id = id)

/-- Model of `getNextImage(currentId)`: wraps forward via `(i + 1) % length`. -/
def getNextImage (images : List Photo) (currentId : String) : Option Photo :=
  let currentIndex := getImageIndex images currentId
  if currentIndex = -1 then none
  else
    let nextIndex := (currentIndex + 1) % (images.length : Int)
    images.get? nextIndex.toNat

/-- Model of `getPreviousImage(currentId)`: wraps backward, `length - 1`
after index 0. -/
def getPreviousImage (images : List Photo) (currentId : String) : Option Photo :=
  let currentIndex := getImageIndex images currentId
  if currentIndex = -1 then none
  else
    let prevIndex :=
      if currentIndex = 0 then (images.length : Int) - 1 else currentIndex - 1
    images.get? prevIndex.toNat

/-! The `ImagePreloader` (`src/js/imagePreloader.js`).  Its two JavaScript
`Map`s are modelled as association lists up to `List.lookup`; loaded image
handles and in-flight promises are identified by natural numbers. -/

/-- JavaScript `Map.set`: bind `k` to `v`, leaving the bindings of all other
keys unchanged. -/
def mapSet (m : List (String × Nat)) (k : String) (v : Nat) :
    List (String × Nat) :=
  (k, v) :: m.filter (fun p => p.1 ≠ k)

/-- JavaScript `Map.delete k`. -/
def mapDelete (m : List (String × Nat)) (k : String) : List (String × Nat) :=
  m.filter (fun p => p.1 ≠ k)

/-- State of an `ImagePreloader` instance: the completed-image cache
(`loadedImages`), the in-flight promise map (`loadingPromises`), and a counter
supplying fresh promise identities. -/
structure PreloaderState where
  loadedImages : List (String × Nat) := []
  loadingPromises : List (String × Nat) := []
  nextPromiseId : Nat := 0
deriving Repr, DecidableEq

/-- What a `preloadImage(url)` call hands back to its caller: an already
cached handle, or (a reference to) an in-flight promise. -/
inductive PreloadOutcome where
  | cached (handle : Nat)
  | pending (promiseId : Nat)
deriving Repr, DecidableEq

/-- Model of `preloadImage(url)` (lines 15–47): cache hit returns the cached image;
an outstanding load returns the existing promise; otherwise a new load is
started and recorded in `loadingPromises`. -/
def preloadImage (s : PreloaderState) (url : String) :
    PreloadOutcome × PreloaderState :=
  match s.loadedImages.lookup url with
  | some handle => (.cached handle, s)
  | none =>
      match s.loadingPromises.lookup url with
      | some pid => (.pending pid, s)
      | none =>
          (.pending s.nextPromiseId,
           { s with loadingPromises := mapSet s.loadingPromises url s.nextPromiseId,
                    nextPromiseId := s.nextPromiseId + 1 })

/-- The `img.onload` handler of the load for `url`, delivering `handle`:
caches the image and removes the in-flight entry. -/
def settleSuccess (s : PreloaderState) (url : String) (handle : Nat) :
    PreloaderState :=
  { s with loadedImages := mapSet s.loadedImages url handle,
           loadingPromises := mapDelete s.loadingPromises url }

/-- The `img.onerror` handler of the load for `url`: removes the in-flight
entry (and caches nothing). -/
def settleFailure (s : PreloaderState) (url : String) : PreloaderState :=
  { s with loadingPromises := mapDelete s.loadingPromises url }

/-- Model of `clearCache()` (lines 149–152). -/
def clearCache (_s : PreloaderState) : PreloaderState :=
  { loadedImages := [], loadingPromises := [], nextPromiseId := _s.nextPromiseId }

/-- One preloader operation: a `preloadImage` call, a load settling (either
way), or `clearCache`. -/
inductive PreloaderStep : PreloaderState → PreloaderState → Prop
  | call (s : PreloaderState) (url : String) : PreloaderStep s (preloadImage s url).2
  | success (s : PreloaderState) (url : String) (handle : Nat) :
      PreloaderStep s (settleSuccess s url handle)
  | failure (s : PreloaderState) (url : String) :
      PreloaderStep s (settleFailure s url)
  | clear (s : PreloaderState) : PreloaderStep s (clearCache s)

/-- The spec's PreloadCache invariant: no URL is simultaneously in the
completed cache and the in-flight map. -/
def DisjointMaps (s : PreloaderState) : Prop :=
  ∀ url, (s.loadedImages.lookup url).isSome →
    s.loadingPromises.lookup url = none

/-! Batch preloading.  Each URL's eventual load outcome is a fixed
`oracle : String → Option Nat` (`some handle` on success, `none` on failure) —
justified by `preloadImage`'s per-URL de-duplication.  `preloadBatch` maps the
per-URL try/catch closure over the list, awaits all (`Promise.all` is
positional), and filters out the `null`s of failed loads. -/

/-- Return value of `preloadBatch(urls)` (lines 55–87). -/
def preloadBatch (oracle : String → Option Nat) (urls : List String) :
    List Nat :=
  if urls.isEmpty then []
  else
    -- urls.map(async url => { try { return await preloadImage(url) } catch { return null } })
    let results : List (Option Nat) := urls.map (fun url => oracle url)
    -- results.filter(img => img !== null)
    results.filterMap id

/-- The `results` array of `Promise.all` as it is actually filled: slot `k`
receives its value when the `k`-th load settles, in an arbitrary completion
order.  `none` = slot not yet settled. -/
def fillSlots (outcomes : List (Option Nat)) (order : List Nat) :
    List (Option (Option Nat)) :=
  order.foldl (fun acc k => acc.set k outcomes[k]?)
    (List.replicate outcomes.length none)

/-- The sequence of `onProgress(loadedCount, total)` calls issued while the
settlements in `order` happen, with `c` settlements already counted:
`loadedCount++` then `onProgress(loadedCount, total)` on every settlement,
success and failure alike. -/
def progressTrace (total : Nat) : List Nat → Nat → List (Nat × Nat)
  | [], _ => []
  | _ :: rest, c => (c + 1, total) :: progressTrace total rest (c + 1)

/-- All `onProgress` calls of one `preloadBatch` whose settlements occur in
`order`. -/
def batchProgress (total : Nat) (order : List Nat) : List (Nat × Nat) :=
  progressTrace total order 0

/-- The chunking of the `for (let i = 0; i < urls.length; i += batchSize)`
loop of `preloadWithBatching`.  (Guarded on `n = 0`, a value the code never
uses — the JavaScript loop would not terminate there.) -/
def chunkList (n : Nat) (l : List String) : List (List String) :=
  if _h : n = 0 ∨ l.isEmpty then []
  else l.take n :: chunkList n (l.drop n)
termination_by l.length
decreasing_by
  simp only [not_or, List.isEmpty_eq_true] at _h
  have h0 : 0 < n := Nat.pos_of_ne_zero _h.1
  have hl : 0 < l.length := List.length_pos.mpr _h.2
  simp only [List.length_drop]
  omega

/-- Return value of `preloadWithBatching(urls, batchSize)` (lines 97–126): the
chunks are preloaded sequentially and their results concatenated. -/
def preloadWithBatching (oracle : String → Option Nat) (urls : List String)
    (batchSize : Nat) : List Nat :=
  if urls.isEmpty then []
  else ((chunkList batchSize urls).map (preloadBatch oracle)).flatten

/-- The list `urls = images.map(img => img.thumbnailUrl).filter(url => url)`
of `preloadGalleryImages` (truthy = non-empty string). -/
def galleryUrls (images : List Photo) : List String :=
  (images.map (fun img => img.thumbnailUrl)).filter (fun url => url ≠ "")

/-- Return value of `preloadGalleryImages(images, priority)` (lines 194–229):
the priority prefix via `preloadBatch`, then the remainder via
`preloadWithBatching` with chunk size 4. -/
def preloadGalleryImages (oracle : String → Option Nat) (images : List Photo)
    (priority : Nat) : List Nat :=
  if images.isEmpty then []
  else
    let urls := galleryUrls images
    if urls.isEmpty then []
    else
      let priorityUrls := urls.take priority
      let remainingUrls := urls.drop priority
      (if priorityUrls.isEmpty then []
       else preloadBatch oracle priorityUrls) ++
      (if remainingUrls.isEmpty then []
       else preloadWithBatching oracle remainingUrls 4)

/-! Client-side compression (`compressImage`, lines 721–780).  Pixel
dimensions are exact rationals; the byte size and MIME type of the input file
are carried alongside.  Only the dimension arithmetic is modelled — the canvas
re-encode itself is a browser primitive. -/

/-- JavaScript `s.startsWith(p)`, modelled over the character list (the
built-in `String.startsWith` does not reduce inside the kernel). -/
def strStartsWith (s p : String) : Bool :=
  p.data.isPrefixOf s.data

/-- An uploaded file as seen by `compressImage`. -/
structure ImgFile where
  type : String
  size : Nat
  width : ℚ
  height : ℚ
deriving Repr, DecidableEq

/-- The dimension calculation inside `img.onload`: a single scale factor
`min(maxWidth/width, maxHeight/height)` applied to both dimensions, only when
the image exceeds the box. -/
def compressDims (w h maxW maxH : ℚ) : ℚ × ℚ :=
  if w > maxW ∨ h > maxH then
    let ratio := min (maxW / w) (maxH / h)
    (w * ratio, h * ratio)
  else (w, h)

/-- The pixel dimensions of `compressImage(file, maxWidth, maxHeight,
quality)`'s result: non-images and files under 2 MiB are returned as-is;
larger images are rescaled by `compressDims`. -/
def compressImageDims (file : ImgFile) (maxW maxH : ℚ) : ℚ × ℚ :=
  if !strStartsWith file.type "image/" then (file.width, file.height)
  else if file.size < 2 * 1024 * 1024 then (file.width, file.height)
  else compressDims file.width file.height maxW maxH

/-! Concrete sample data used to instantiate the theorems below. -/

/-- A concrete normalized photo with id `"a"`. -/
def samplePhotoA : Photo :=
  ⟨"a", "descA", "locA", "tA", "uA", "urlA", "thumbA", "keyA"⟩

/-- A concrete normalized photo with id `"b"`. -/
def samplePhotoB : Photo :=
  ⟨"b", "descB", "locB", "tB", "uB", "urlB", "thumbB", "keyB"⟩

/-- A concrete normalized photo with id `"c"`. -/
def samplePhotoC : Photo :=
  ⟨"c", "descC", "locC", "tC", "uC", "urlC", "thumbC", "keyC"⟩

/-- A three-photo collection `[A, B, C]` with distinct ids. -/
def samplePhotos : List Photo := [samplePhotoA, samplePhotoB, samplePhotoC]

/-- A concrete raw server record carrying only a `photoId`. -/
def sampleRaw : RawPhoto := { photoId := some "p1" }

/-- A service state mid-session: one photo loaded, idle, more pages expected. -/
def sampleStateC2 : ImageServiceState :=
  { images := [samplePhotoA], isLoading := false, apiBaseUrl := some "api",
    currentPage := 1, limit := 54, hasMore := true }

/-- A configured service state just after construction. -/
def sampleStateC3 : ImageServiceState := { apiBaseUrl := some "api" }

/-- A service state with one photo loaded and no more pages expected. -/
def sampleStateC4 : ImageServiceState :=
  { images := [samplePhotoA], isLoading := false, apiBaseUrl := some "api",
    currentPage := 3, limit := 54, hasMore := false }

/-- Five batch URLs, of which `"u3"` will fail to load. -/
def batchUrlsW : List String := ["u1", "u2", "u3", "u4", "u5"]

/-- A load oracle failing exactly on `"u3"`. -/
def batchOracleW : String → Option Nat :=
  fun u => if u = "u3" then none else some 1

/-- A 5 MiB 4000×3000 JPEG upload, the spec's compression example. -/
def sampleImg : ImgFile := ⟨"image/jpeg", 5 * 1024 * 1024, 4000, 3000⟩

end Mirror

namespace Mirror

/-- C1: For every PhotoSource state in which `isLoading` is true or `hasMore`
is false, `loadMorePhotos()` returns an empty list and leaves `currentPage`,
the photo collection, and `hasMore` unchanged (in fact the whole state). -/
theorem C1_loadMore_guard_noop (ctx : FetchCtx) (s : ImageServiceState)
    (net : FetchOutcome) (h : s.isLoading = true ∨ s.hasMore = false) :
    (loadMorePhotos ctx s net).ret = .ok [] ∧
    (loadMorePhotos ctx s net).state = s ∧
    (loadMorePhotos ctx s net).requestedPage = none := by
  have hguard : (s.isLoading || !s.hasMore) = true := by
    rcases h with h | h <;> simp [h]
  simp [loadMorePhotos, hguard]

/-- Witness for C1 at a concrete loading state. -/
theorem C1_loadMore_guard_noop_witness :
    (loadMorePhotos ⟨"f", "t"⟩ { isLoading := true, apiBaseUrl := some "api" }
        .networkError).ret = .ok [] ∧
    (loadMorePhotos ⟨"f", "t"⟩ { isLoading := true, apiBaseUrl := some "api" }
        .networkError).state = { isLoading := true, apiBaseUrl := some "api" } ∧
    (loadMorePhotos ⟨"f", "t"⟩ { isLoading := true, apiBaseUrl := some "api" }
        .networkError).requestedPage = none :=
  C1_loadMore_guard_noop ⟨"f", "t"⟩ _ .networkError (Or.inl rfl)

/-- Helper: an idle, configured service with pages remaining always issues the
request for `currentPage + 1` from `loadMorePhotos`, whatever the network
does. -/
theorem loadMore_active_requestedPage (ctx : FetchCtx) (s : ImageServiceState)
    (net : FetchOutcome) (u : String) (h1 : s.isLoading = false)
    (h2 : s.hasMore = true) (h3 : s.apiBaseUrl = some u) :
    (loadMorePhotos ctx s net).requestedPage = some (s.currentPage + 1) := by
  have hguard : (s.isLoading || !s.hasMore) = false := by simp [h1, h2]
  cases net with
  | networkError => simp [loadMorePhotos, hguard, h3]
  | httpError status => simp [loadMorePhotos, hguard, h3]
  | undecodable => simp [loadMorePhotos, hguard, h3]
  | payload resp =>
      cases hp : parseEnvelope resp with
      | none => simp [loadMorePhotos, hguard, h3, hp]
      | some p => cases p <;> simp [loadMorePhotos, hguard, h3, hp]

/-- C2: For every PhotoSource state with `isLoading` false and `hasMore` true,
a failing page request in `loadMorePhotos()` (non-ok status, network failure,
or undecodable body) raises the error, leaves `currentPage` where it was (net
rollback) and the loaded photos untouched, and a subsequent retry requests the
identical page number. -/
theorem C2_loadMore_failure_rollback (ctx : FetchCtx) (s : ImageServiceState)
    (net : FetchOutcome) (u : String)
    (h1 : s.isLoading = false) (h2 : s.hasMore = true)
    (h3 : s.apiBaseUrl = some u) (h4 : net.isFailure = true) :
    (∃ msg, (loadMorePhotos ctx s net).ret = .error msg) ∧
    (loadMorePhotos ctx s net).state.currentPage = s.currentPage ∧
    (loadMorePhotos ctx s net).state.images = s.images ∧
    (loadMorePhotos ctx s net).requestedPage = some (s.currentPage + 1) ∧
    ∀ net', (loadMorePhotos ctx (loadMorePhotos ctx s net).state net').requestedPage
      = some (s.currentPage + 1) := by
  have hguard : (s.isLoading || !s.hasMore) = false := by simp [h1, h2]
  have hstate : (∃ msg, (loadMorePhotos ctx s net).ret = .error msg) ∧
      (loadMorePhotos ctx s net).state.isLoading = false ∧
      (loadMorePhotos ctx s net).state.hasMore = true ∧
      (loadMorePhotos ctx s net).state.apiBaseUrl = some u ∧
      (loadMorePhotos ctx s net).state.currentPage = s.currentPage ∧
      (loadMorePhotos ctx s net).state.images = s.images ∧
      (loadMorePhotos ctx s net).requestedPage = some (s.currentPage + 1) := by
    cases net with
    | networkError => simp [loadMorePhotos, hguard, h1, h3, h2]
    | httpError status => simp [loadMorePhotos, hguard, h1, h3, h2]
    | undecodable => simp [loadMorePhotos, hguard, h1, h3, h2]
    | payload resp =>
        cases resp with
        | plain p => simp [FetchOutcome.isFailure] at h4
        | wrapped i =>
            cases i with
            | none => simp [loadMorePhotos, hguard, h1, h3, h2, parseEnvelope]
            | some p => simp [FetchOutcome.isFailure] at h4
  obtain ⟨he, hL, hM, hU, hCP, hIm, hRP⟩ := hstate
  refine ⟨he, hCP, hIm, hRP, fun net' => ?_⟩
  have hr := loadMore_active_requestedPage ctx (loadMorePhotos ctx s net).state net' u hL hM hU
  rw [hr, hCP]

/-- Witness for C2 at a concrete state and a concrete HTTP 500 failure. -/
theorem C2_loadMore_failure_rollback_witness :
    (∃ msg, (loadMorePhotos ⟨"f", "t"⟩ sampleStateC2 (.httpError 500)).ret = .error msg) ∧
    (loadMorePhotos ⟨"f", "t"⟩ sampleStateC2 (.httpError 500)).state.currentPage
      = sampleStateC2.currentPage ∧
    (loadMorePhotos ⟨"f", "t"⟩ sampleStateC2 (.httpError 500)).state.images
      = sampleStateC2.images ∧
    (loadMorePhotos ⟨"f", "t"⟩ sampleStateC2 (.httpError 500)).requestedPage
      = some (sampleStateC2.currentPage + 1) ∧
    ∀ net', (loadMorePhotos ⟨"f", "t"⟩
        (loadMorePhotos ⟨"f", "t"⟩ sampleStateC2 (.httpError 500)).state net').requestedPage
      = some (sampleStateC2.currentPage + 1) :=
  C2_loadMore_failure_rollback ⟨"f", "t"⟩ sampleStateC2 (.httpError 500) "api"
    rfl rfl rfl rfl

/-- C3 counterexample: the final `fetchImages` does NOT accept a bare JSON
array — on `[sampleRaw]` it returns an empty list (and raises nothing), while
the `photos`-object shape with the same record yields the normalized photo, so
the two shapes are not handled transparently alike. -/
theorem C3_counterexample :
    (fetchImages ⟨"f", "t"⟩ sampleStateC3 (.payload (.plain (.arr [sampleRaw])))).ret
      = .ok [] ∧
    (fetchImages ⟨"f", "t"⟩ sampleStateC3
        (.payload (.plain (.photosObj [sampleRaw] none)))).ret
      = .ok [transformPhoto ⟨"f", "t"⟩ sampleRaw] ∧
    (Except.ok ([] : List Photo) : Except String (List Photo))
      ≠ .ok [transformPhoto ⟨"f", "t"⟩ sampleRaw] := by
  decide

/-- C3 amended: `fetchImages` (final version) unwraps a JSON-encoded `body`
string transparently but accepts only the `{photos: [...]}` shape, producing
the normalized list; an unparseable `body` string raises; a bare array, an
`Items` object, or any other shape yields an empty collection with
`hasMore = false` without raising. -/
theorem C3_fetch_shapes_amended (ctx : FetchCtx) (s : ImageServiceState)
    (u : String) (photos : List RawPhoto) (hm : Option Bool)
    (h : s.apiBaseUrl = some u) :
    (fetchImages ctx s (.payload (.plain (.photosObj photos hm)))).ret
      = .ok (photos.map (transformPhoto ctx)) ∧
    fetchImages ctx s (.payload (.wrapped (some (.photosObj photos hm))))
      = fetchImages ctx s (.payload (.plain (.photosObj photos hm))) ∧
    (∃ msg, (fetchImages ctx s (.payload (.wrapped none))).ret = .error msg) ∧
    (∀ l : List RawPhoto,
       (fetchImages ctx s (.payload (.plain (.arr l)))).ret = .ok [] ∧
       (fetchImages ctx s (.payload (.plain (.arr l)))).state.images = [] ∧
       (fetchImages ctx s (.payload (.plain (.arr l)))).state.hasMore = false) ∧
    (∀ l : List RawPhoto,
       (fetchImages ctx s (.payload (.plain (.itemsObj l)))).ret = .ok [] ∧
       (fetchImages ctx s (.payload (.plain (.itemsObj l)))).state.images = [] ∧
       (fetchImages ctx s (.payload (.plain (.itemsObj l)))).state.hasMore = false) := by
  refine ⟨?_, ?_, ?_, ?_, ?_⟩ <;> simp [fetchImages, h, parseEnvelope]

/-- Witness for the amended C3 at concrete inputs. -/
theorem C3_fetch_shapes_amended_witness :
    (fetchImages ⟨"f", "t"⟩ sampleStateC3
        (.payload (.plain (.photosObj [sampleRaw] none)))).ret
      = .ok ([sampleRaw].map (transformPhoto ⟨"f", "t"⟩)) ∧
    fetchImages ⟨"f", "t"⟩ sampleStateC3
        (.payload (.wrapped (some (.photosObj [sampleRaw] none))))
      = fetchImages ⟨"f", "t"⟩ sampleStateC3
          (.payload (.plain (.photosObj [sampleRaw] none))) ∧
    (∃ msg, (fetchImages ⟨"f", "t"⟩ sampleStateC3
        (.payload (.wrapped none))).ret = .error msg) ∧
    (∀ l : List RawPhoto,
       (fetchImages ⟨"f", "t"⟩ sampleStateC3 (.payload (.plain (.arr l)))).ret = .ok [] ∧
       (fetchImages ⟨"f", "t"⟩ sampleStateC3
           (.payload (.plain (.arr l)))).state.images = [] ∧
       (fetchImages ⟨"f", "t"⟩ sampleStateC3
           (.payload (.plain (.arr l)))).state.hasMore = false) ∧
    (∀ l : List RawPhoto,
       (fetchImages ⟨"f", "t"⟩ sampleStateC3
           (.payload (.plain (.itemsObj l)))).ret = .ok [] ∧
       (fetchImages ⟨"f", "t"⟩ sampleStateC3
           (.payload (.plain (.itemsObj l)))).state.images = [] ∧
       (fetchImages ⟨"f", "t"⟩ sampleStateC3
           (.payload (.plain (.itemsObj l)))).state.hasMore = false) :=
  C3_fetch_shapes_amended ⟨"f", "t"⟩ sampleStateC3 "api" [sampleRaw] none rfl

/-- C4 counterexample: an initial fetch failing with HTTP 500 raises and
leaves the previously loaded collection non-empty with `hasMore = true`
(reset at call start) — it does not empty the collection nor set
`hasMore = false`. -/
theorem C4_counterexample :
    (fetchImages ⟨"f", "t"⟩ sampleStateC4 (.httpError 500)).ret
      = .error "Failed to fetch images: HTTP error! status: 500" ∧
    (fetchImages ⟨"f", "t"⟩ sampleStateC4 (.httpError 500)).state.images
      = [samplePhotoA] ∧
    [samplePhotoA] ≠ ([] : List Photo) ∧
    (fetchImages ⟨"f", "t"⟩ sampleStateC4 (.httpError 500)).state.hasMore = true := by
  decide

/-- C4 amended: only a network-level failure during the initial
`fetchImages()` empties the collection, sets `hasMore = false` and returns an
empty result without raising; a non-ok HTTP status or an undecodable body
raises `FetchError` instead, leaving the previously loaded photos unchanged
(with `hasMore` reset to true at call start). -/
theorem C4_initial_fetch_failure_amended (ctx : FetchCtx)
    (s : ImageServiceState) (u : String) (h : s.apiBaseUrl = some u) :
    ((fetchImages ctx s .networkError).ret = .ok [] ∧
     (fetchImages ctx s .networkError).state.images = [] ∧
     (fetchImages ctx s .networkError).state.hasMore = false) ∧
    (∀ status, (∃ msg, (fetchImages ctx s (.httpError status)).ret = .error msg) ∧
       (fetchImages ctx s (.httpError status)).state.images = s.images ∧
       (fetchImages ctx s (.httpError status)).state.hasMore = true) ∧
    ((∃ msg, (fetchImages ctx s .undecodable).ret = .error msg) ∧
     (fetchImages ctx s .undecodable).state.images = s.images ∧
     (fetchImages ctx s .undecodable).state.hasMore = true) ∧
    ((∃ msg, (fetchImages ctx s (.payload (.wrapped none))).ret = .error msg) ∧
     (fetchImages ctx s (.payload (.wrapped none))).state.images = s.images ∧
     (fetchImages ctx s (.payload (.wrapped none))).state.hasMore = true) := by
  refine ⟨?_, ?_, ?_, ?_⟩ <;> simp [fetchImages, h, parseEnvelope]

/-- Witness for the amended C4 at a concrete state. -/
theorem C4_initial_fetch_failure_amended_witness :
    ((fetchImages ⟨"f", "t"⟩ sampleStateC4 .networkError).ret = .ok [] ∧
     (fetchImages ⟨"f", "t"⟩ sampleStateC4 .networkError).state.images = [] ∧
     (fetchImages ⟨"f", "t"⟩ sampleStateC4 .networkError).state.hasMore = false) ∧
    (∀ status, (∃ msg, (fetchImages ⟨"f", "t"⟩ sampleStateC4 (.httpError status)).ret
        = .error msg) ∧
       (fetchImages ⟨"f", "t"⟩ sampleStateC4 (.httpError status)).state.images
        = sampleStateC4.images ∧
       (fetchImages ⟨"f", "t"⟩ sampleStateC4 (.httpError status)).state.hasMore = true) ∧
    ((∃ msg, (fetchImages ⟨"f", "t"⟩ sampleStateC4 .undecodable).ret = .error msg) ∧
     (fetchImages ⟨"f", "t"⟩ sampleStateC4 .undecodable).state.images
      = sampleStateC4.images ∧
     (fetchImages ⟨"f", "t"⟩ sampleStateC4 .undecodable).state.hasMore = true) ∧
    ((∃ msg, (fetchImages ⟨"f", "t"⟩ sampleStateC4
        (.payload (.wrapped none))).ret = .error msg) ∧
     (fetchImages ⟨"f", "t"⟩ sampleStateC4
        (.payload (.wrapped none))).state.images = sampleStateC4.images ∧
     (fetchImages ⟨"f", "t"⟩ sampleStateC4
        (.payload (.wrapped none))).state.hasMore = true) :=
  C4_initial_fetch_failure_amended ⟨"f", "t"⟩ sampleStateC4 "api" rfl


/-- Helper: JavaScript `findIndex` returns `-1` when no element matches. -/
theorem findIndexId_of_forall_ne (id : String) :
    ∀ (l : List Photo), (∀ p ∈ l, p.id ≠ id) → findIndexId id l = -1 := by
  intro l
  induction l with
  | nil => intro _; rfl
  | cons p rest ih =>
      intro h
      have hp : ¬ p.id = id := h p (List.mem_cons_self p rest)
      have hr : findIndexId id rest = -1 :=
        ih (fun q hq => h q (List.mem_cons_of_mem _ hq))
      simp [findIndexId, hp, hr]

/-- Helper: `findIndex` finds the head at index 0. -/
theorem findIndexId_head (p : Photo) (rest : List Photo) :
    findIndexId p.id (p :: rest) = 0 := by
  simp [findIndexId]

/-- Helper: with pairwise-distinct ids, `findIndex` of the last element's id
is `length - 1`. -/
theorem findIndexId_last :
    ∀ (l : List Photo) (hne : l ≠ []), (l.map Photo.id).Nodup →
      findIndexId (l.getLast hne).id l = (l.length : Int) - 1 := by
  intro l
  induction l with
  | nil => intro hne; exact absurd rfl hne
  | cons p rest ih =>
      intro hne hnd
      cases rest with
      | nil => simp [findIndexId]
      | cons q rest' =>
          have hne' : q :: rest' ≠ [] := by simp
          rw [List.map_cons, List.nodup_cons] at hnd
          have hmem : ((q :: rest').getLast hne').id ∈ (q :: rest').map Photo.id :=
            List.mem_map_of_mem _ (List.getLast_mem hne')
          have hpid : ¬ p.id = ((q :: rest').getLast hne').id := by
            intro he
            exact hnd.1 (by rw [he]; exact hmem)
          have ihv := ih hne' hnd.2
          have hlast : (p :: q :: rest').getLast hne = (q :: rest').getLast hne' :=
            List.getLast_cons hne'
          rw [hlast]
          have hlen : ((q :: rest').length : Int) - 1 = (rest'.length : Int) := by
            simp
          rw [hlen] at ihv
          have hne'' : ¬ ((rest'.length : Int) = -1) := by omega
          rw [findIndexId]
          rw [if_neg hpid]
          simp only [ihv, hne'', if_false, List.length_cons]
          push_cast
          omega

/-- Helper: `l.get? (l.length - 1)` is the last element. -/
theorem get?_length_sub_one :
    ∀ (l : List Photo) (h : l ≠ []), l.get? (l.length - 1) = some (l.getLast h) := by
  intro l
  induction l with
  | nil => intro h; exact absurd rfl h
  | cons p rest ih =>
      intro h
      cases rest with
      | nil => rfl
      | cons q rest' =>
          have hne' : q :: rest' ≠ [] := by simp
          have ihv := ih hne'
          have hlast : (p :: q :: rest').getLast h = (q :: rest').getLast hne' :=
            List.getLast_cons hne'
          rw [hlast]
          simpa using ihv

/-- C5: over any collection with pairwise-distinct ids, `getNextImage` and
`getPreviousImage` wrap circularly (next of the last element's id is the first
element; previous of the first element's id is the last element), and both
return `null` for any id absent from the collection — in particular whenever
the collection is empty. -/
theorem C5_nav_wrap (images : List Photo) :
    (∀ (hne : images ≠ []), (images.map Photo.id).Nodup →
       getNextImage images ((images.getLast hne).id) = images.head? ∧
       getPreviousImage images ((images.head hne).id) = some (images.getLast hne)) ∧
    (∀ id, id ∉ images.map Photo.id →
       getNextImage images id = none ∧ getPreviousImage images id = none) := by
  constructor
  · intro hne hnd
    have hlen : 0 < images.length := List.length_pos.mpr hne
    constructor
    · -- next of last wraps to the head
      have hidx := findIndexId_last images hne hnd
      have hne1 : ¬ ((images.length : Int) - 1 = -1) := by omega
      have hmod : ((images.length : Int) - 1 + 1) % (images.length : Int) = 0 := by
        have : ((images.length : Int) - 1 + 1) = (images.length : Int) := by omega
        rw [this, Int.emod_self]
      simp only [getNextImage, getImageIndex, hidx, hne1, if_false, hmod]
      cases images with
      | nil => exact absurd rfl hne
      | cons p rest => rfl
    · -- previous of head wraps to the last
      cases images with
      | nil => exact absurd rfl hne
      | cons p rest =>
          have hidx : findIndexId ((p :: rest).head (by simp)).id (p :: rest) = 0 := by
            simpa using findIndexId_head p rest
          have hne0 : ¬ ((0 : Int) = -1) := by omega
          have htn : (((p :: rest).length : Int) - 1).toNat = (p :: rest).length - 1 := by
            simp only [List.length_cons]
            omega
          simp only [getPreviousImage, getImageIndex, hidx, hne0, if_false, if_true, htn]
          simpa using get?_length_sub_one (p :: rest) hne
  · intro id hid
    have hall : ∀ p ∈ images, p.id ≠ id := by
      intro p hp he
      exact hid (he ▸ List.mem_map_of_mem Photo.id hp)
    have hidx : findIndexId id images = -1 := findIndexId_of_forall_ne id images hall
    constructor <;> simp [getNextImage, getPreviousImage, getImageIndex, hidx]

/-- Witness for C5 on the concrete 3-photo collection `[A, B, C]`. -/
theorem C5_nav_wrap_witness :
    getNextImage samplePhotos "c" = some samplePhotoA ∧
    getPreviousImage samplePhotos "a" = some samplePhotoC ∧
    getNextImage samplePhotos "z" = none ∧
    getPreviousImage samplePhotos "z" = none := by
  obtain ⟨h1, h2⟩ := C5_nav_wrap samplePhotos
  obtain ⟨hn, hp⟩ := h1 (by decide) (by decide)
  obtain ⟨hzn, hzp⟩ := h2 "z" (by decide)
  exact ⟨hn, hp, hzn, hzp⟩

/-- Helper: `mapSet` is prepend-after-delete. -/
theorem mapSet_eq (m : List (String × Nat)) (k : String) (v : Nat) :
    mapSet m k v = (k, v) :: mapDelete m k := rfl

/-- Helper: deleting a key makes its lookup `none`. -/
theorem lookup_mapDelete_self (m : List (String × Nat)) (k : String) :
    (mapDelete m k).lookup k = none := by
  induction m with
  | nil => rfl
  | cons e t ih =>
      obtain ⟨k1, v1⟩ := e
      by_cases he : k1 = k
      · simpa [mapDelete, List.filter_cons, he] using ih
      · have hk : (k == k1) = false := by
          simp [Ne.symm he]
        simpa [mapDelete, List.filter_cons, he, List.lookup, hk] using ih

/-- Helper: deleting a key leaves other keys' lookups unchanged. -/
theorem lookup_mapDelete_ne (m : List (String × Nat)) (k k' : String)
    (h : k' ≠ k) : (mapDelete m k).lookup k' = m.lookup k' := by
  induction m with
  | nil => rfl
  | cons e t ih =>
      obtain ⟨k1, v1⟩ := e
      by_cases he : k1 = k
      · have hne2 : k' ≠ k1 := fun hx => h (hx.trans he)
        have hk : (k' == k1) = false := by
          simp [hne2]
        have hr : List.lookup k' ((k1, v1) :: t) = List.lookup k' t := by
          simp [List.lookup, hk]
        rw [hr]
        simpa [mapDelete, List.filter_cons, he] using ih
      · by_cases he' : k' = k1
        · simp [mapDelete, List.filter_cons, he, List.lookup, he']
        · have hk : (k' == k1) = false := by
            simp [he']
          simpa [mapDelete, List.filter_cons, he, List.lookup, hk] using ih

/-- Helper: `Map.set` then lookup of the same key. -/
theorem lookup_mapSet_self (m : List (String × Nat)) (k : String) (v : Nat) :
    (mapSet m k v).lookup k = some v := by
  simp [mapSet, List.lookup]

/-- Helper: `Map.set` leaves other keys' lookups unchanged. -/
theorem lookup_mapSet_ne (m : List (String × Nat)) (k : String) (v : Nat)
    (k' : String) (h : k' ≠ k) : (mapSet m k v).lookup k' = m.lookup k' := by
  have hk : (k' == k) = false := by simp [h]
  rw [mapSet_eq]
  simp only [List.lookup, hk]
  exact lookup_mapDelete_ne m k k' h

/-- C6: for a URL neither cached nor in flight, the first `preloadImage` call
starts exactly one load; a second call made before the load settles returns
the same promise without starting another load or changing state; after a
successful settlement a call returns the cached handle immediately; after a
failed settlement nothing is cached and nothing is in flight for the URL, so
the next call starts a fresh load and records it. -/
theorem C6_preload_dedup (s : PreloaderState) (url : String) (handle : Nat)
    (h1 : s.loadedImages.lookup url = none)
    (h2 : s.loadingPromises.lookup url = none) :
    (preloadImage s url).1 = .pending s.nextPromiseId ∧
    (preloadImage s url).2.nextPromiseId = s.nextPromiseId + 1 ∧
    preloadImage (preloadImage s url).2 url
      = (.pending s.nextPromiseId, (preloadImage s url).2) ∧
    preloadImage (settleSuccess (preloadImage s url).2 url handle) url
      = (.cached handle, settleSuccess (preloadImage s url).2 url handle) ∧
    (settleFailure (preloadImage s url).2 url).loadedImages.lookup url = none ∧
    (settleFailure (preloadImage s url).2 url).loadingPromises.lookup url = none ∧
    (preloadImage (settleFailure (preloadImage s url).2 url) url).1
      = .pending (s.nextPromiseId + 1) ∧
    (preloadImage (settleFailure (preloadImage s url).2 url) url).2.loadingPromises.lookup url
      = some (s.nextPromiseId + 1) := by
  have e1 : preloadImage s url =
      (.pending s.nextPromiseId,
       { s with loadingPromises := mapSet s.loadingPromises url s.nextPromiseId,
                nextPromiseId := s.nextPromiseId + 1 }) := by
    simp [preloadImage, h1, h2]
  refine ⟨by rw [e1], by rw [e1], ?_, ?_, ?_, ?_, ?_, ?_⟩
  · rw [e1]
    simp [preloadImage, h1, lookup_mapSet_self]
  · rw [e1]
    simp [preloadImage, settleSuccess, lookup_mapSet_self]
  · rw [e1]
    simpa [settleFailure] using h1
  · rw [e1]
    simp [settleFailure, lookup_mapDelete_self]
  · rw [e1]
    simp [preloadImage, settleFailure, h1, lookup_mapDelete_self]
  · rw [e1]
    simp [preloadImage, settleFailure, h1, lookup_mapDelete_self, lookup_mapSet_self]

/-- Witness for C6 starting from an empty preloader. -/
theorem C6_preload_dedup_witness :
    (preloadImage ⟨[], [], 0⟩ "u").1 = .pending 0 ∧
    (preloadImage ⟨[], [], 0⟩ "u").2.nextPromiseId = 0 + 1 ∧
    preloadImage (preloadImage ⟨[], [], 0⟩ "u").2 "u"
      = (.pending 0, (preloadImage ⟨[], [], 0⟩ "u").2) ∧
    preloadImage (settleSuccess (preloadImage ⟨[], [], 0⟩ "u").2 "u" 7) "u"
      = (.cached 7, settleSuccess (preloadImage ⟨[], [], 0⟩ "u").2 "u" 7) ∧
    (settleFailure (preloadImage ⟨[], [], 0⟩ "u").2 "u").loadedImages.lookup "u" = none ∧
    (settleFailure (preloadImage ⟨[], [], 0⟩ "u").2 "u").loadingPromises.lookup "u" = none ∧
    (preloadImage (settleFailure (preloadImage ⟨[], [], 0⟩ "u").2 "u") "u").1
      = .pending (0 + 1) ∧
    (preloadImage (settleFailure (preloadImage ⟨[], [], 0⟩ "u").2 "u") "u").2.loadingPromises.lookup "u"
      = some (0 + 1) :=
  C6_preload_dedup ⟨[], [], 0⟩ "u" 7 rfl rfl

/-- C9: every preloader operation — a `preloadImage` call, a successful or
failed settlement, and `clearCache` — preserves the invariant that no URL is
in the completed cache and the in-flight map at once. -/
theorem C9_disjoint_invariant (s s' : PreloaderState)
    (hinv : DisjointMaps s) (hstep : PreloaderStep s s') : DisjointMaps s' := by
  cases hstep with
  | call url =>
      cases hl : s.loadedImages.lookup url with
      | some h =>
          intro u hu
          simp only [preloadImage, hl] at hu ⊢
          exact hinv u hu
      | none =>
          cases hp : s.loadingPromises.lookup url with
          | some pid =>
              intro u hu
              simp only [preloadImage, hl, hp] at hu ⊢
              exact hinv u hu
          | none =>
              intro u hu
              simp only [preloadImage, hl, hp] at hu ⊢
              by_cases he : u = url
              · subst he
                rw [hl] at hu
                simp at hu
              · rw [lookup_mapSet_ne _ _ _ _ he]
                exact hinv u hu
  | success url handle =>
      intro u hu
      simp only [settleSuccess] at hu ⊢
      by_cases he : u = url
      · subst he
        exact lookup_mapDelete_self _ _
      · rw [lookup_mapDelete_ne _ _ _ he]
        refine hinv u ?_
        rw [lookup_mapSet_ne _ _ _ _ he] at hu
        exact hu
  | failure url =>
      intro u hu
      simp only [settleFailure] at hu ⊢
      by_cases he : u = url
      · subst he
        exact lookup_mapDelete_self _ _
      · rw [lookup_mapDelete_ne _ _ _ he]
        exact hinv u hu
  | clear =>
      intro u hu
      simp [clearCache, List.lookup] at hu

/-- Witness for C9: one `preloadImage` step from the empty preloader. -/
theorem C9_disjoint_invariant_witness :
    DisjointMaps (preloadImage ⟨[], [], 0⟩ "u").2 :=
  C9_disjoint_invariant ⟨[], [], 0⟩ _
    (fun _url hu => by simp [List.lookup] at hu) (.call _ "u")

/-- Helper: `preloadBatch` is `filterMap` of the oracle (failed loads
excluded, successes kept in input order). -/
theorem preloadBatch_eq_filterMap (oracle : String → Option Nat)
    (urls : List String) : preloadBatch oracle urls = urls.filterMap oracle := by
  by_cases h : urls.isEmpty
  · rw [List.isEmpty_iff] at h
    subst h
    rfl
  · simp [preloadBatch, h, List.filterMap_map, Function.comp]

/-- Helper: the length of a `filterMap` counts the successes. -/
theorem length_filterMap_eq_countP (f : String → Option Nat) :
    ∀ l : List String, (l.filterMap f).length = l.countP (fun a => (f a).isSome) := by
  intro l
  induction l with
  | nil => rfl
  | cons a t ih =>
      cases hfa : f a with
      | none => simp [List.filterMap_cons, hfa, List.countP_cons, ih]
      | some v => simp [List.filterMap_cons, hfa, List.countP_cons, ih]

/-- Helper: the progress trace counts settlements `c+1, c+2, …` in order. -/
theorem progressTrace_eq (total : Nat) :
    ∀ (order : List Nat) (c : Nat),
      progressTrace total order c
        = (List.range order.length).map (fun k => (c + k + 1, total)) := by
  intro order
  induction order with
  | nil => intro c; rfl
  | cons x rest ih =>
      intro c
      show (c + 1, total) :: progressTrace total rest (c + 1) = _
      rw [ih (c + 1)]
      simp only [List.length_cons, List.range_succ_eq_map, List.map_cons, List.map_map]
      refine congrArg₂ List.cons rfl ?_
      refine List.map_congr_left ?_
      intro k _
      simp only [Function.comp_apply, Prod.mk.injEq, and_true]
      omega

/-- Helper: writing the fixed value `g k` into slot `k` for each `k` in the
settlement order leaves slot `i` holding `g i` once `i` has settled. -/
theorem foldl_set_getElem? {β : Type} (g : Nat → β) :
    ∀ (order : List Nat) (init : List β) (i : Nat), i < init.length →
      (order.foldl (fun acc k => acc.set k (g k)) init)[i]? =
        if i ∈ order then some (g i) else init[i]? := by
  intro order
  induction order with
  | nil =>
      intro init i hi
      simp
  | cons k rest ih =>
      intro init i hi
      rw [List.foldl_cons]
      have hi' : i < (init.set k (g k)).length := by
        rw [List.length_set]
        exact hi
      rw [ih (init.set k (g k)) i hi']
      by_cases hm : i ∈ rest
      · simp [hm]
      · by_cases hk : i = k
        · subst hk
          simp [hm, List.getElem?_set_self hi]
        · have hk' : k ≠ i := fun he => hk he.symm
          simp [hm, hk, List.getElem?_set_ne hk']

/-- Helper: once every slot has settled (the order is a permutation of all
indices), the results array is exactly the positional outcomes — independent
of the completion order. -/
theorem fillSlots_of_perm (outcomes : List (Option Nat)) (order : List Nat)
    (h : order.Perm (List.range outcomes.length)) :
    fillSlots outcomes order = outcomes.map some := by
  apply List.ext_getElem?
  intro i
  by_cases hi : i < outcomes.length
  · have hmem : i ∈ order := h.mem_iff.mpr (List.mem_range.mpr hi)
    have hlen : (List.replicate outcomes.length (none : Option (Option Nat))).length
        = outcomes.length := List.length_replicate _ _
    rw [fillSlots, foldl_set_getElem? (fun k => outcomes[k]?) order _ i
      (by rw [hlen]; exact hi)]
    rw [if_pos hmem, List.getElem?_map, List.getElem?_eq_getElem hi]
    rfl
  · have h1 : (fillSlots outcomes order).length = outcomes.length := by
      rw [fillSlots]
      have : ∀ (o : List Nat) (init : List (Option (Option Nat))),
          (o.foldl (fun acc k => acc.set k outcomes[k]?) init).length = init.length := by
        intro o
        induction o with
        | nil => intro init; rfl
        | cons k rest ih2 =>
            intro init
            rw [List.foldl_cons, ih2, List.length_set]
      rw [this, List.length_replicate]
    rw [List.getElem?_eq_none, List.getElem?_eq_none]
    · rw [List.length_map]
      omega
    · rw [h1]
      omega

/-- Helper: the chunks of the sequential batching loop concatenate back to
the original URL list. -/
theorem chunkList_flatten (n : Nat) (hn : n ≠ 0) :
    ∀ l : List String, (chunkList n l).flatten = l := by
  have key : ∀ (m : Nat) (l : List String), l.length ≤ m →
      (chunkList n l).flatten = l := by
    intro m
    induction m with
    | zero =>
        intro l hl
        have : l = [] := List.eq_nil_of_length_eq_zero (Nat.le_zero.mp hl)
        subst this
        rw [chunkList]
        simp
    | succ m ih =>
        intro l hl
        rw [chunkList]
        by_cases he : l.isEmpty
        · rw [List.isEmpty_iff] at he
          subst he
          simp
        · have hcond : ¬(n = 0 ∨ l.isEmpty = true) := by
            simp [hn, he]
          rw [dif_neg hcond]
          rw [List.flatten_cons]
          have hlt : (l.drop n).length ≤ m := by
            rw [List.length_drop]
            have : l.length ≠ 0 := by
              intro h0
              exact he (List.isEmpty_iff.mpr (List.eq_nil_of_length_eq_zero h0))
            omega
          rw [ih (l.drop n) hlt]
          exact List.take_append_drop n l
  intro l
  exact key l.length l le_rfl

/-- Helper: per-chunk batching flattens to one `filterMap` over the
concatenated chunks. -/
theorem flatten_map_preloadBatch (oracle : String → Option Nat) :
    ∀ chunks : List (List String),
      ((chunks.map (preloadBatch oracle)).flatten) = chunks.flatten.filterMap oracle := by
  intro chunks
  induction chunks with
  | nil => rfl
  | cons c t ih =>
      simp [preloadBatch_eq_filterMap, ih, List.filterMap_append]

/-- Helper: sequential chunked preloading returns exactly what one flat batch
would. -/
theorem preloadWithBatching_eq (oracle : String → Option Nat)
    (urls : List String) (n : Nat) (hn : n ≠ 0) :
    preloadWithBatching oracle urls n = urls.filterMap oracle := by
  by_cases he : urls.isEmpty
  · rw [List.isEmpty_iff] at he
    subst he
    rfl
  · simp only [preloadWithBatching, he, Bool.false_eq_true, if_false]
    rw [flatten_map_preloadBatch, chunkList_flatten n hn]

/-- C7: `preloadBatch` never rejects (it is a total function in this model):
every failing URL is excluded and every success included, in input order; and
whatever order the loads settle in, `onProgress` fires exactly once per
settlement with the count incrementing one at a time from 1 up to the total.
In particular five URLs with one failure yield four handles (see witness). -/
theorem C7_batch_settles (oracle : String → Option Nat) (urls : List String)
    (order : List Nat) (h : order.Perm (List.range urls.length)) :
    preloadBatch oracle urls = urls.filterMap oracle ∧
    (preloadBatch oracle urls).length = urls.countP (fun u => (oracle u).isSome) ∧
    batchProgress urls.length order
      = (List.range urls.length).map (fun k => (k + 1, urls.length)) := by
  refine ⟨preloadBatch_eq_filterMap oracle urls, ?_, ?_⟩
  · rw [preloadBatch_eq_filterMap]
    exact length_filterMap_eq_countP oracle urls
  · rw [batchProgress, progressTrace_eq]
    have hlen : order.length = urls.length := by
      have := h.length_eq
      simpa using this
    rw [hlen]
    refine List.map_congr_left ?_
    intro k _
    simp

/-- Witness for C7: five URLs with `"u3"` failing give four handles, and the
progress callbacks are `(1,5) … (5,5)`. -/
theorem C7_batch_settles_witness :
    (preloadBatch batchOracleW batchUrlsW).length = 4 ∧
    batchProgress batchUrlsW.length (List.range batchUrlsW.length)
      = [(1, 5), (2, 5), (3, 5), (4, 5), (5, 5)] := by
  obtain ⟨h1, h2, h3⟩ := C7_batch_settles batchOracleW batchUrlsW
    (List.range batchUrlsW.length) (List.Perm.refl _)
  constructor
  · rw [h2]
    decide
  · rw [h3]
    decide

/-- C10: the `Promise.all` results array of `preloadBatch` is the positional
outcome list whatever order the loads settle in, so the returned handles are
the successes in input-URL order; and `preloadGalleryImages` returns the
priority-prefix handles (in input order) followed by the remainder handles
(in input order). -/
theorem C10_batch_input_order (oracle : String → Option Nat)
    (urls : List String) (order : List Nat) (images : List Photo)
    (priority : Nat) (h : order.Perm (List.range (urls.map oracle).length)) :
    fillSlots (urls.map oracle) order = (urls.map oracle).map some ∧
    preloadBatch oracle urls = urls.filterMap oracle ∧
    preloadGalleryImages oracle images priority
      = preloadBatch oracle ((galleryUrls images).take priority)
        ++ preloadBatch oracle ((galleryUrls images).drop priority) := by
  refine ⟨fillSlots_of_perm _ _ h, preloadBatch_eq_filterMap oracle urls, ?_⟩
  by_cases hi : images.isEmpty
  · rw [List.isEmpty_iff] at hi
    subst hi
    simp [preloadGalleryImages, galleryUrls, preloadBatch]
  · by_cases hu : (galleryUrls images).isEmpty
    · rw [List.isEmpty_iff] at hu
      simp [preloadGalleryImages, hi, hu, preloadBatch]
    · have h1 : (if ((galleryUrls images).take priority).isEmpty then []
                 else preloadBatch oracle ((galleryUrls images).take priority))
          = preloadBatch oracle ((galleryUrls images).take priority) := by
        by_cases ht : ((galleryUrls images).take priority).isEmpty
        · rw [if_pos ht]
          rw [List.isEmpty_iff] at ht
          rw [ht]
          rfl
        · rw [if_neg ht]
      have h2 : (if ((galleryUrls images).drop priority).isEmpty then []
                 else preloadWithBatching oracle ((galleryUrls images).drop priority) 4)
          = preloadBatch oracle ((galleryUrls images).drop priority) := by
        by_cases ht : ((galleryUrls images).drop priority).isEmpty
        · rw [if_pos ht]
          rw [List.isEmpty_iff] at ht
          rw [ht]
          rfl
        · rw [if_neg ht, preloadWithBatching_eq oracle _ 4 (by omega),
            preloadBatch_eq_filterMap]
      simp only [preloadGalleryImages, hi, hu, Bool.false_eq_true, if_false]
      rw [h1, h2]

/-- Witness for C10 with a non-identity settlement order over five URLs and
the concrete three-photo gallery split at priority 2. -/
theorem C10_batch_input_order_witness :
    fillSlots (batchUrlsW.map batchOracleW) [4, 2, 0, 1, 3]
      = (batchUrlsW.map batchOracleW).map some ∧
    preloadBatch batchOracleW batchUrlsW = batchUrlsW.filterMap batchOracleW ∧
    preloadGalleryImages batchOracleW samplePhotos 2
      = preloadBatch batchOracleW ((galleryUrls samplePhotos).take 2)
        ++ preloadBatch batchOracleW ((galleryUrls samplePhotos).drop 2) :=
  C10_batch_input_order batchOracleW batchUrlsW [4, 2, 0, 1, 3] samplePhotos 2
    (by decide)

/-- Helper: the concrete outcome of compressing the sample 4000×3000 image. -/
theorem compress_sample_eq :
    compressImageDims sampleImg 2560 1440 = (1920, 1440) := by
  have hsw : strStartsWith "image/jpeg" "image/" = true := by decide
  norm_num [compressImageDims, compressDims, sampleImg, hsw, min_def]

/-- C8 counterexample: `compressImage` on the 5 MiB 4000×3000 source scales by
`min(2560/4000, 1440/3000) = 0.48`, yielding 1920×1440 — not the 2133×1600 the
claim expects (2133×1600 would not even fit the 2560×1440 box). -/
theorem C8_counterexample :
    compressImageDims sampleImg 2560 1440 = (1920, 1440) ∧
    compressImageDims sampleImg 2560 1440 ≠ (2133, 1600) := by
  refine ⟨compress_sample_eq, ?_⟩
  rw [compress_sample_eq]
  norm_num [Prod.ext_iff]

/-- C8 amended: only image files of at least 2 MiB are rescaled (others pass
through unchanged); the rescale applies one factor to both dimensions, so the
output fits the 2560×1440 box and the aspect ratio is preserved exactly; the
4000×3000 example comes out 1920×1440. -/
theorem C8_compress_amended (f : ImgFile) (hw : 0 < f.width)
    (hh : 0 < f.height) :
    (strStartsWith f.type "image/" = false ∨ f.size < 2 * 1024 * 1024 →
       compressImageDims f 2560 1440 = (f.width, f.height)) ∧
    ((strStartsWith f.type "image/") = true → 2 * 1024 * 1024 ≤ f.size →
       (compressImageDims f 2560 1440).1 ≤ 2560 ∧
       (compressImageDims f 2560 1440).2 ≤ 1440 ∧
       (compressImageDims f 2560 1440).1 * f.height
         = (compressImageDims f 2560 1440).2 * f.width) ∧
    compressImageDims sampleImg 2560 1440 = (1920, 1440) := by
  refine ⟨?_, ?_, compress_sample_eq⟩
  · intro hcase
    rcases hcase with hc | hc
    · simp [compressImageDims, hc]
    · by_cases ht : strStartsWith f.type "image/" <;>
        simp [compressImageDims, ht, hc]
  · intro ht hs
    have hns : ¬ f.size < 2 * 1024 * 1024 := by omega
    have hout : compressImageDims f 2560 1440
        = compressDims f.width f.height 2560 1440 := by
      simp [compressImageDims, ht, hns]
    rw [hout]
    by_cases hbig : f.width > 2560 ∨ f.height > 1440
    · have hcd : compressDims f.width f.height 2560 1440
          = (f.width * min (2560 / f.width) (1440 / f.height),
             f.height * min (2560 / f.width) (1440 / f.height)) := by
        simp [compressDims, hbig]
      rw [hcd]
      refine ⟨?_, ?_, by ring⟩
      · have h1 : min (2560 / f.width) (1440 / f.height) ≤ 2560 / f.width :=
          min_le_left _ _
        calc f.width * min (2560 / f.width) (1440 / f.height)
            ≤ f.width * (2560 / f.width) :=
              mul_le_mul_of_nonneg_left h1 (le_of_lt hw)
          _ = 2560 := by field_simp
      · have h1 : min (2560 / f.width) (1440 / f.height) ≤ 1440 / f.height :=
          min_le_right _ _
        calc f.height * min (2560 / f.width) (1440 / f.height)
            ≤ f.height * (1440 / f.height) :=
              mul_le_mul_of_nonneg_left h1 (le_of_lt hh)
          _ = 1440 := by field_simp
    · have hcd : compressDims f.width f.height 2560 1440 = (f.width, f.height) := by
        simp [compressDims, hbig]
      rw [hcd]
      push_neg at hbig
      exact ⟨hbig.1, hbig.2, by ring⟩

/-- Witness for the amended C8 at the concrete 5 MiB 4000×3000 image. -/
theorem C8_compress_amended_witness :
    ((strStartsWith sampleImg.type "image/") = false ∨
       sampleImg.size < 2 * 1024 * 1024 →
       compressImageDims sampleImg 2560 1440
         = (sampleImg.width, sampleImg.height)) ∧
    ((strStartsWith sampleImg.type "image/") = true →
       2 * 1024 * 1024 ≤ sampleImg.size →
       (compressImageDims sampleImg 2560 1440).1 ≤ 2560 ∧
       (compressImageDims sampleImg 2560 1440).2 ≤ 1440 ∧
       (compressImageDims sampleImg 2560 1440).1 * sampleImg.height
         = (compressImageDims sampleImg 2560 1440).2 * sampleImg.width) ∧
    compressImageDims sampleImg 2560 1440 = (1920, 1440) :=
  C8_compress_amended sampleImg (by norm_num [sampleImg]) (by norm_num [sampleImg])

end Mirror
